import Mathlib

/-!
Shallow embedding of `src/components/LiveFile.js` (the `LiveFile` class of
the live-directory repository).

Modelling choices:
* Timestamps (`Date.now()`) are `Int` milliseconds; each operation that reads
  the clock receives the reading `now` as an explicit parameter.
* `watcher_delay` is an `Int` (a JS number).
* The cached `content` private field is `Option String`: `none` models the
  `undefined` value it holds before the first successful read.
* Plain JS values stored in the handlers object (and passed around as
  options or payloads) are modelled by `JSVal`; function and object values
  are opaque, identified by a tag, since `LiveFile` never inspects them.
* The `#handlers` object literal is modelled as the association list of its
  own properties (initially `reload` and `error`), and property reads fall
  back to the standard `Object.prototype` members when no own property
  exists, exactly as JS property lookup does on an object literal; the
  assignment `this.#handlers[type] = handler` creates or updates an own
  property, except for the key `"__proto__"`, which hits the inherited
  accessor and creates no own property (the prototype replacement that
  accessor can perform is outside the model; no claim exercises it).
* The renderer actually gets invoked by `render`, so renderer values carry a
  real Lean function when callable (`RendererV.fn`) and an arbitrary
  non-callable JS value otherwise (`RendererV.notFn`), mirroring the
  `typeof renderer !== 'function'` check.
* Asynchronous callback invocations of the registered `reload`/`error`
  handlers are modelled as emitted `Event` values; the file-system read is
  modelled by its completion callback `(error, content)`.
* `throw` is modelled by `Except JsError`; a thrown error leaves the state
  unchanged.
* `this.#watcher.close()` is modelled by the `watcher_open` flag: the watch
  callback (`watch_trigger`) and the watcher error channel (`watch_error`)
  only fire while the flag is set.
-/

/-- Plain JavaScript values as far as `LiveFile` manipulates them.  Functions
and objects are opaque references identified by a natural-number tag. -/
inductive JSVal where
  | undef
  | null
  | bool (b : Bool)
  | num (n : Int)
  | str (s : String)
  | obj (id : Nat)
  | fn (id : Nat)
deriving DecidableEq

/-- A renderer value: either a callable `(content, options) => output`
(modelled as a Lean function that can really be applied) or any
non-callable JS value. -/
inductive RendererV where
  | fn (f : Option String → JSVal → JSVal)
  | notFn (v : JSVal)

/-- The errors `LiveFile` throws synchronously, and the implicit TypeError
raised when a non-callable renderer is invoked. -/
inductive JsError where
  | unsupported_event (type : String)
  | renderer_must_be_function
  | not_a_function
deriving DecidableEq

/-- An asynchronous invocation of one of the two registered handlers:
`reload` with the freshly read content, or `error` with a failure
description. -/
inductive Event where
  | reload (content : String)
  | error (e : String)
deriving DecidableEq

/-- External effects issued by `LiveFile` methods: starting the FSWatcher
and issuing an asynchronous `FileSystem.readFile`. -/
inductive Effect where
  | watch_start (path : String)
  | read_issue (path : String)
deriving DecidableEq

/-- The private fields of a `LiveFile` instance.  `handlers` is the list of
own properties of the `#handlers` object literal, in insertion order. -/
structure LiveFile where
  path : String
  content : Option String
  watcher_delay : Int
  last_update : Int
  renderer : RendererV
  handlers : List (String × JSVal)
  watcher_open : Bool

/-- JavaScript loose equality with `undefined` (`x == undefined`), true of
`undefined` and of `null`. -/
def loose_eq_undefined (v : JSVal) : Bool :=
  match v with
  | .undef => true
  | .null => true
  | _ => false

/-- Reading an own property of a JS object modelled as an association
list. -/
def assoc_get (l : List (String × JSVal)) (k : String) : Option JSVal :=
  match l with
  | [] => none
  | (k', v) :: rest => if k = k' then some v else assoc_get rest k

/-- Writing an own property of a JS object modelled as an association list:
updates the property in place when it exists, appends it otherwise. -/
def assoc_set (l : List (String × JSVal)) (k : String) (v : JSVal) :
    List (String × JSVal) :=
  match l with
  | [] => [(k, v)]
  | (k', v') :: rest =>
    if k = k' then (k, v) :: rest else (k', v') :: assoc_set rest k v

/-- The properties an object literal inherits from `Object.prototype`: its
eleven standard methods (opaque function values) and the `__proto__`
accessor, whose getter returns `Object.prototype` itself (an object).  None
of them is loosely equal to `undefined`. -/
def object_prototype_props : List (String × JSVal) :=
  [("constructor", JSVal.fn 100), ("hasOwnProperty", JSVal.fn 101),
   ("isPrototypeOf", JSVal.fn 102), ("propertyIsEnumerable", JSVal.fn 103),
   ("toLocaleString", JSVal.fn 104), ("toString", JSVal.fn 105),
   ("valueOf", JSVal.fn 106), ("__defineGetter__", JSVal.fn 107),
   ("__defineSetter__", JSVal.fn 108), ("__lookupGetter__", JSVal.fn 109),
   ("__lookupSetter__", JSVal.fn 110), ("__proto__", JSVal.obj 0)]

/-- `this.#handlers[type]`: JS property lookup on the handlers object
literal — an own property when one exists, otherwise the member inherited
from `Object.prototype`, otherwise `undefined`. -/
def handlers_lookup (s : LiveFile) (type : String) : JSVal :=
  match assoc_get s.handlers type with
  | some v => v
  | none =>
    match assoc_get object_prototype_props type with
    | some v => v
    | none => JSVal.undef

/-- `this.#handlers[type] = handler`: creates or updates an own property of
the handlers object.  The key `"__proto__"` instead reaches the inherited
accessor, which creates no own property (the prototype replacement it can
perform when the value is an object is outside the model; `handle` is never
proved to do anything after a `"__proto__"` registration). -/
def handlers_set (s : LiveFile) (type : String) (handler : JSVal) : LiveFile :=
  if type = "__proto__" then s
  else { s with handlers := assoc_set s.handlers type handler }

/-- `set_content(content)`: overwrites the cached content unconditionally. -/
def set_content (s : LiveFile) (content : String) : LiveFile :=
  { s with content := some content }

/-- `set_renderer(renderer)`: throws unless the argument is callable,
otherwise stores it. -/
def set_renderer (s : LiveFile) (renderer : RendererV) : Except JsError LiveFile :=
  match renderer with
  | .notFn _ => .error .renderer_must_be_function
  | .fn _ => .ok { s with renderer := renderer }

/-- `render(options)`: invokes the stored renderer on the cached content and
the supplied options; invoking a non-callable stored value raises the
JS TypeError. -/
def render (s : LiveFile) (options : JSVal) : Except JsError JSVal :=
  match s.renderer with
  | .fn f => .ok (f s.content options)
  | .notFn _ => .error .not_a_function

/-- `handle(type, handler)`: throws when `this.#handlers[type] == undefined`,
otherwise stores `handler` (any value, unvalidated) in that slot. -/
def handle (s : LiveFile) (type : String) (handler : JSVal) : Except JsError LiveFile :=
  if loose_eq_undefined (handlers_lookup s type) then
    .error (.unsupported_event type)
  else
    .ok (handlers_set s type handler)

/-- `_delay_check(touch)`: returns whether more than `watcher_delay`
milliseconds have elapsed since `last_update`, and, when the result is true
and `touch` is set, stamps `last_update` with the current time. -/
def delay_check (s : LiveFile) (now : Int) (touch : Bool) : Bool × LiveFile :=
  let last_update := s.last_update
  let watcher_delay := s.watcher_delay
  let result : Bool := decide (now - last_update > watcher_delay)
  if result && touch then (result, { s with last_update := now })
  else (result, s)

/-- `_reload_content()`: issues one asynchronous read of the path; the state
is untouched until the completion callback runs. -/
def reload_content (s : LiveFile) : LiveFile × List Effect :=
  (s, [.read_issue s.path])

/-- The completion callback `(error, content)` passed to
`FileSystem.readFile` by `_reload_content`: on error, reports through the
`error` handler and returns; otherwise replaces the content and fires the
`reload` handler with the new content. -/
def reload_callback (s : LiveFile) (error : Option String) (content : String) :
    LiveFile × Event :=
  match error with
  | some e => (s, .error e)
  | none => ({ s with content := some content }, .reload content)

/-- The FSWatcher change callback installed by `_init_watcher`: while the
watcher is open, runs `_delay_check()` (with `touch` defaulted to true) and
issues a reload when it passes; a closed watcher delivers nothing.  The
returned list holds the read effect when one is issued. -/
def watch_trigger (s : LiveFile) (now : Int) : LiveFile × List Effect :=
  if s.watcher_open then
    let (accepted, s') := delay_check s now true
    if accepted then
      let (s'', effs) := reload_content s'
      (s'', effs)
    else (s', [])
  else (s, [])

/-- The FSWatcher error channel (`watcher.on('error', ...)`) bridged to the
registered `error` handler; a closed watcher delivers nothing. -/
def watch_error (s : LiveFile) (e : String) : Option Event :=
  if s.watcher_open then some (.error e) else none

/-- `new LiveFile({ path, watcher_delay, renderer })`: initialises the
fields (pre-dating `last_update` by `watcher_delay`), starts the watcher,
and issues one unconditional initial read.  The two default handlers are
(distinct) opaque no-op functions. -/
def construct (path : String) (watcher_delay : Int) (renderer : RendererV)
    (now : Int) : LiveFile × List Effect :=
  let s : LiveFile := {
    path := path
    content := none
    watcher_delay := watcher_delay
    last_update := now - watcher_delay
    renderer := renderer
    handlers := [("reload", JSVal.fn 0), ("error", JSVal.fn 1)]
    watcher_open := true }
  let (s', effs) := reload_content s
  (s', [Effect.watch_start path] ++ effs)

/-- `_destroy()`: closes the watcher, then clears the content to the empty
string. -/
def destroy (s : LiveFile) : LiveFile :=
  { s with watcher_open := false, content := some "" }

/-- The operations that can act on a constructed `LiveFile` instance
(public methods, the two asynchronous callbacks, and the getters, which do
not change state and are omitted as identities). -/
inductive Op where
  | set_content (content : String)
  | set_renderer (renderer : RendererV)
  | render (options : JSVal)
  | handle (type : String) (handler : JSVal)
  | watch_trigger
  | reload_complete (error : Option String) (content : String)
  | destroy

/-- One operation acting on the instance state; a thrown error leaves the
state unchanged, exactly as in the source. -/
def step (s : LiveFile) (op : Op) (now : Int) : LiveFile :=
  match op with
  | .set_content c => set_content s c
  | .set_renderer r =>
    match set_renderer s r with
    | .ok s' => s'
    | .error _ => s
  | .render _ => s
  | .handle t h =>
    match handle s t h with
    | .ok s' => s'
    | .error _ => s
  | .watch_trigger => (watch_trigger s now).1
  | .reload_complete err c => (reload_callback s err c).1
  | .destroy => destroy s

/-- A concrete renderer used in witnesses: returns the cached content as a
string (empty when no content is cached yet). -/
def f0 : Option String → JSVal → JSVal := fun c _ => JSVal.str (c.getD "")

/-- A concrete callable renderer value. -/
def r0 : RendererV := RendererV.fn f0

/-- A concrete instance: constructed at time 0ms with a 100ms delay. -/
def lf0 : LiveFile := (construct "index.html" 100 r0 0).1

/-- Claim C1: `_delay_check` returns true iff the current time minus the
stored `last_update` exceeds `watcher_delay`; when it returns true and
`touch` is set it updates `last_update` to the current time, and in every
other case (false result, or `touch` unset) the state is unchanged. -/
theorem delay_check_correct (s : LiveFile) (now : Int) (touch : Bool) :
    ((delay_check s now touch).1 = true ↔ now - s.last_update > s.watcher_delay)
    ∧ (delay_check s now touch).2 =
        (if now - s.last_update > s.watcher_delay ∧ touch = true
         then { s with last_update := now } else s) := by
  unfold delay_check
  by_cases hr : now - s.last_update > s.watcher_delay <;> cases touch <;>
    simp [hr]

/-- Claim C2: the read completion callback of `_reload_content` reports a
failure through the `error` handler and leaves the cached content (indeed
the whole state) unchanged, and on success replaces the content with the
newly read value and then fires the `reload` handler with exactly that
value; issuing the read itself never changes the state (no synchronous
throw), it only emits the read request. -/
theorem reload_content_correct (s : LiveFile) (error : Option String) (c : String) :
    (∀ e, error = some e → reload_callback s error c = (s, Event.error e))
    ∧ (error = none →
        reload_callback s error c = ({ s with content := some c }, Event.reload c))
    ∧ reload_content s = (s, [Effect.read_issue s.path]) := by
  refine ⟨?_, ?_, rfl⟩
  · intro e he; subst he; rfl
  · intro he; subst he; rfl

/-- Claim C2 witness: at a concrete instance, a failed read leaves the state
unchanged and emits the error event, and a successful read stores and
reports the new content. -/
theorem reload_content_correct_witness :
    reload_callback lf0 (some "ENOENT") "x" = (lf0, Event.error "ENOENT")
    ∧ reload_callback lf0 none "x" = ({ lf0 with content := some "x" }, Event.reload "x") :=
  ⟨(reload_content_correct lf0 (some "ENOENT") "x").1 "ENOENT" rfl,
   (reload_content_correct lf0 none "x").2.1 rfl⟩

/-- Claim C3 counterexample: with `watcher_delay = 100`, construction at
0ms pre-dates `last_update` to −100ms, so the trigger at 50ms is accepted
(elapsed 150 > 100) — the claim says it is rejected — and the trigger at
150ms is then rejected (elapsed 100 is not > 100) — the claim says it is
accepted. -/
theorem debounce_scenario_counterexample :
    (delay_check lf0 50 true).1 = true
    ∧ (delay_check (delay_check lf0 50 true).2 150 true).1 = false := by
  constructor <;> rfl

/-- Claim C3 amended: with `watcher_delay = 100` and construction at 0ms,
the constructor issues its unconditional baseline read and sets
`last_update = −100`; the debounce policy then accepts the trigger at 50ms
(stamping `last_update = 50`) and rejects the trigger at 150ms, leaving the
state unchanged there. -/
theorem debounce_scenario_amended :
    (construct "index.html" 100 r0 0).2.count (Effect.read_issue "index.html") = 1
    ∧ lf0.last_update = -100
    ∧ (delay_check lf0 50 true).1 = true
    ∧ (delay_check lf0 50 true).2.last_update = 50
    ∧ (delay_check (delay_check lf0 50 true).2 150 true).1 = false
    ∧ (delay_check (delay_check lf0 50 true).2 150 true).2 = (delay_check lf0 50 true).2 := by
  refine ⟨rfl, rfl, rfl, rfl, rfl, rfl⟩

/-- Claim C4 (code bug, evaluated at the failing input): the claim — and
the spec — say every kind other than reload and error is rejected with the
unsupported-event error, but `handle('toString', fn)` does not throw: the
handlers object has no own `toString` property, so the read
`this.#handlers['toString']` yields the inherited
`Object.prototype.toString`, a function, the `== undefined` check fails,
and the handler is stored as an own property shadowing the inherited
method. -/
theorem handle_prototype_leak :
    assoc_get lf0.handlers "toString" = none
    ∧ handlers_lookup lf0 "toString" = JSVal.fn 105
    ∧ handle lf0 "toString" (JSVal.fn 7)
        = Except.ok { lf0 with handlers := assoc_set lf0.handlers "toString" (JSVal.fn 7) }
    ∧ assoc_get (assoc_set lf0.handlers "toString" (JSVal.fn 7)) "toString"
        = some (JSVal.fn 7) := by
  refine ⟨rfl, rfl, rfl, rfl⟩

/-- Claim C5: construction sets `last_update = now − watcher_delay`, starts
the watch subscription, and issues exactly one initial read — the effect
list is always `[watch_start, read_issue]`, with no debounce gate involved,
for every value of `watcher_delay`. -/
theorem construct_correct (path : String) (d : Int) (r : RendererV) (now : Int) :
    (construct path d r now).1.last_update = now - d
    ∧ (construct path d r now).1.watcher_open = true
    ∧ (construct path d r now).2 = [Effect.watch_start path, Effect.read_issue path]
    ∧ (construct path d r now).2.count (Effect.read_issue path) = 1 := by
  refine ⟨rfl, rfl, rfl, ?_⟩
  simp [construct, reload_content, List.count_cons]

/-- Claim C6: `set_renderer` raises an argument-type error on every
non-callable argument, and the thrown call leaves the state — in
particular the active renderer — unchanged; on a callable argument it
replaces the renderer, and subsequent `render` calls invoke the new one. -/
theorem set_renderer_correct (s : LiveFile) (v : JSVal)
    (f : Option String → JSVal → JSVal) (options : JSVal) (now : Int) :
    set_renderer s (RendererV.notFn v) = Except.error JsError.renderer_must_be_function
    ∧ step s (Op.set_renderer (RendererV.notFn v)) now = s
    ∧ set_renderer s (RendererV.fn f) = Except.ok { s with renderer := RendererV.fn f }
    ∧ render { s with renderer := RendererV.fn f } options = Except.ok (f s.content options) :=
  ⟨rfl, rfl, rfl, rfl⟩

/-- Claim C7: `render` invokes the currently stored renderer with exactly
the current cached content and the supplied options and returns the
result directly; the call leaves the state unchanged (nothing is cached),
so a second call with the same content and options returns the same
result. -/
theorem render_correct (s : LiveFile) (f : Option String → JSVal → JSVal)
    (options : JSVal) (now : Int) (h : s.renderer = RendererV.fn f) :
    render s options = Except.ok (f s.content options)
    ∧ step s (Op.render options) now = s
    ∧ render (step s (Op.render options) now) options = render s options := by
  refine ⟨?_, rfl, rfl⟩
  simp [render, h]

/-- Claim C7 witness: rendering the concrete instance with concrete options
invokes its renderer on the cached content and is stable across two calls. -/
theorem render_correct_witness :
    render lf0 (JSVal.num 3) = Except.ok (f0 lf0.content (JSVal.num 3))
    ∧ step lf0 (Op.render (JSVal.num 3)) 7 = lf0
    ∧ render (step lf0 (Op.render (JSVal.num 3)) 7) (JSVal.num 3) = render lf0 (JSVal.num 3) :=
  render_correct lf0 f0 (JSVal.num 3) 7 rfl

/-- Helper: a successful `handle` call only rewrites the handlers object;
every other field of the instance is preserved. -/
theorem handle_ok_preserves (s : LiveFile) (t : String) (hv : JSVal)
    (s' : LiveFile) (h : handle s t hv = Except.ok s') :
    s'.watcher_open = s.watcher_open ∧ s'.last_update = s.last_update := by
  unfold handle at h
  split at h
  · cases h
  · cases h
    unfold handlers_set
    split <;> exact ⟨rfl, rfl⟩

/-- Helper: an own property just written to a JS object is what a
subsequent read of the same key returns. -/
theorem assoc_get_set_self (l : List (String × JSVal)) (k : String) (v : JSVal) :
    assoc_get (assoc_set l k v) k = some v := by
  induction l with
  | nil => simp [assoc_set, assoc_get]
  | cons p rest ih =>
    obtain ⟨k', v'⟩ := p
    by_cases hk : k = k'
    · simp [assoc_set, assoc_get, hk]
    · simp [assoc_set, assoc_get, hk, ih]

/-- Claim C8: `_destroy` closes the watch subscription and sets the cached
content to the empty string; afterwards the content accessor reads empty,
the watch path delivers nothing (the change callback issues no read and
the watcher error channel emits no event, and no subsequent operation
reopens the watcher), while path, delay, timestamp, renderer and both
handler bindings are untouched. -/
theorem destroy_correct (s : LiveFile) (now now' : Int) (e : String) (op : Op) :
    (destroy s).content = some ""
    ∧ (destroy s).watcher_open = false
    ∧ (destroy s).path = s.path
    ∧ (destroy s).watcher_delay = s.watcher_delay
    ∧ (destroy s).last_update = s.last_update
    ∧ (destroy s).renderer = s.renderer
    ∧ (destroy s).handlers = s.handlers
    ∧ watch_trigger (destroy s) now = (destroy s, [])
    ∧ watch_error (destroy s) e = none
    ∧ (step (destroy s) op now').watcher_open = false := by
  refine ⟨rfl, rfl, rfl, rfl, rfl, rfl, rfl, rfl, rfl, ?_⟩
  cases op with
  | set_content c => rfl
  | set_renderer r => cases r <;> rfl
  | render o => rfl
  | handle t hv =>
    simp only [step]
    split
    · rename_i s' heq
      rw [(handle_ok_preserves (destroy s) t hv s' heq).1]
      rfl
    · rfl
  | watch_trigger => rfl
  | reload_complete err c => cases err <;> rfl
  | destroy => rfl

/-- Claim C9: assuming a non-decreasing clock (`last_update ≤ now` at each
step) every operation either leaves `last_update` unchanged or stamps it
with the current clock reading, so it never decreases and never runs ahead
of the clock; only the watch-path debounce check writes it, and the
constructor initialises it at or below the construction-time clock when
`watcher_delay` is non-negative. -/
theorem last_update_monotone (s : LiveFile) (op : Op) (now : Int)
    (path : String) (d : Int) (r : RendererV) (t : Int)
    (hclock : s.last_update ≤ now) (hd : 0 ≤ d) :
    s.last_update ≤ (step s op now).last_update
    ∧ ((step s op now).last_update = s.last_update ∨ (step s op now).last_update = now)
    ∧ (step s op now).last_update ≤ now
    ∧ (op ≠ Op.watch_trigger → (step s op now).last_update = s.last_update)
    ∧ (construct path d r t).1.last_update ≤ t := by
  have hcon : (construct path d r t).1.last_update ≤ t := by
    show t - d ≤ t
    omega
  cases op with
  | set_content c => exact ⟨le_refl _, Or.inl rfl, hclock, fun _ => rfl, hcon⟩
  | set_renderer r' =>
    cases r' with
    | fn f => exact ⟨le_refl _, Or.inl rfl, hclock, fun _ => rfl, hcon⟩
    | notFn v => exact ⟨le_refl _, Or.inl rfl, hclock, fun _ => rfl, hcon⟩
  | render o => exact ⟨le_refl _, Or.inl rfl, hclock, fun _ => rfl, hcon⟩
  | handle t' hv =>
    have : (step s (Op.handle t' hv) now).last_update = s.last_update := by
      simp only [step]
      split
      · rename_i s' heq
        exact (handle_ok_preserves s t' hv s' heq).2
      · rfl
    rw [this]
    exact ⟨le_refl _, Or.inl rfl, hclock, fun _ => rfl, hcon⟩
  | watch_trigger =>
    simp only [step, watch_trigger, delay_check, reload_content]
    split
    · split
      · split
        · exact ⟨hclock, Or.inr rfl, le_refl _, fun hne => absurd rfl hne, hcon⟩
        · simp_all
      · split
        · simp_all
        · exact ⟨le_refl _, Or.inl rfl, hclock, fun _ => rfl, hcon⟩
    · exact ⟨le_refl _, Or.inl rfl, hclock, fun _ => rfl, hcon⟩
  | reload_complete err c =>
    cases err with
    | some e => exact ⟨le_refl _, Or.inl rfl, hclock, fun _ => rfl, hcon⟩
    | none => exact ⟨le_refl _, Or.inl rfl, hclock, fun _ => rfl, hcon⟩
  | destroy => exact ⟨le_refl _, Or.inl rfl, hclock, fun _ => rfl, hcon⟩

/-- Claim C9 witness: at the concrete instance (whose `last_update` is
−100) an accepted watch trigger at time 5 stamps `last_update = 5`, which
does not decrease it and does not pass the clock. -/
theorem last_update_monotone_witness :
    lf0.last_update ≤ (step lf0 Op.watch_trigger 5).last_update
    ∧ ((step lf0 Op.watch_trigger 5).last_update = lf0.last_update
        ∨ (step lf0 Op.watch_trigger 5).last_update = 5)
    ∧ (step lf0 Op.watch_trigger 5).last_update ≤ 5
    ∧ (Op.watch_trigger ≠ Op.watch_trigger →
        (step lf0 Op.watch_trigger 5).last_update = lf0.last_update)
    ∧ (construct "a" 3 r0 9).1.last_update ≤ 9 :=
  last_update_monotone lf0 Op.watch_trigger 5 "a" 3 r0 9 (by decide) (by decide)

/-- Claim C10: `handle` performs no validation of the handler value:
registering `undefined` for a supported kind succeeds and stores it, after
which every further `handle` call for that kind — whatever handler it
offers — throws the unsupported-event error, so the kind can never be
registered again. -/
theorem handle_undefined_bricks_kind (s : LiveFile)
    (hr : loose_eq_undefined (handlers_lookup s "reload") = false)
    (he : loose_eq_undefined (handlers_lookup s "error") = false) :
    (handle s "reload" JSVal.undef
        = Except.ok { s with handlers := assoc_set s.handlers "reload" JSVal.undef }
      ∧ ∀ h, handle { s with handlers := assoc_set s.handlers "reload" JSVal.undef } "reload" h
          = Except.error (JsError.unsupported_event "reload"))
    ∧ (handle s "error" JSVal.undef
        = Except.ok { s with handlers := assoc_set s.handlers "error" JSVal.undef }
      ∧ ∀ h, handle { s with handlers := assoc_set s.handlers "error" JSVal.undef } "error" h
          = Except.error (JsError.unsupported_event "error")) := by
  refine ⟨⟨?_, ?_⟩, ⟨?_, ?_⟩⟩
  · simp [handle, hr, handlers_set]
  · intro h
    simp [handle, handlers_lookup, assoc_get_set_self, loose_eq_undefined]
  · simp [handle, he, handlers_set]
  · intro h
    simp [handle, handlers_lookup, assoc_get_set_self, loose_eq_undefined]

/-- Claim C10 witness: on the concrete instance, registering `undefined`
for reload succeeds, and a later registration of a real function for
reload is rejected. -/
theorem handle_undefined_bricks_kind_witness :
    handle lf0 "reload" JSVal.undef
        = Except.ok { lf0 with handlers := assoc_set lf0.handlers "reload" JSVal.undef }
    ∧ handle { lf0 with handlers := assoc_set lf0.handlers "reload" JSVal.undef } "reload" (JSVal.fn 9)
        = Except.error (JsError.unsupported_event "reload") :=
  ⟨(handle_undefined_bricks_kind lf0 rfl rfl).1.1,
   (handle_undefined_bricks_kind lf0 rfl rfl).1.2 (JSVal.fn 9)⟩
